import Mathlib

/-!
Verification of the DevAlex Tech Stack Recommendation Engine
(`src/core/agents/tech_advisor.py`), via a shallow embedding.

Modelling conventions:
* Python dict slots that may be absent, present-with-`None`, or
  present-with-a-string are modelled as `Option (Option String)`:
  `none` = key absent, `some none` = key present holding `None`,
  `some (some s)` = key present holding the string `s`.
* Python truthiness of such a slot (`if stack.get(k):`) is
  `(truthyVal v).isSome`: absent, `None` and `""` are falsy.
* Floats are modelled as `ℚ`.  Every numeric comparison performed by the
  engine (preference maxima over {0.5,...,0.9}; complexity thresholds 2 and
  3.5 against averages n/m with m ≤ 3) is exact in binary floating point,
  so the rational model agrees with the Python float semantics.
* Functions that Python implements by raising an exception on bad input
  (`max()` over an empty preference table) return `Option`/`none` instead.
* File I/O side effects (re-writing default stores) are not modelled; the
  loaders are modelled as functions of the file's state.
-/

/-- Characterwise lower-casing, modelling Python `str.lower()` on the
ASCII descriptions the engine scans. -/
def lowerStr (s : String) : String := ⟨s.data.map Char.toLower⟩

/-- Decision procedure: `strHas hay pat` holds whether `pat` occurs as a contiguous
subsequence of `hay`: Python's `pat in hay` on strings. -/
def strHas : List Char → List Char → Bool
  | [], pat => pat.isEmpty
  | c :: t, pat => pat.isPrefixOf (c :: t) || strHas t pat

/-- Python `kw in text` for strings. -/
def containsKw (text kw : String) : Bool := strHas text.data kw.data

/-- First-match association-list lookup: Python `d.get(k)` for a dict
modelled as an insertion-ordered association list. -/
def lookupStr {α : Type} (k : String) : List (String × α) → Option α
  | [] => none
  | (a, b) :: rest => if k = a then some b else lookupStr k rest

/-- Python `d.get(k, dflt)`. -/
def lookupStrD {α : Type} (k : String) (l : List (String × α)) (dflt : α) : α :=
  (lookupStr k l).getD dflt

/-- A technology-stack dict as built by the recommendation pipeline
(`_generate_recommendations` and later stages).  Slot encoding is
described in the header.  The `tools` list (built by `_suggest_tools`,
whose final `list(set(...))` order is unspecified in Python) carries no
claim and is omitted. -/
structure Stack where
  frontend : Option (Option String) := none
  backend : Option (Option String) := none
  database : Option (Option String) := none
  hosting : Option (Option String) := none
  css : Option (Option String) := none
  state_management : Option (Option String) := none
  orm : Option (Option String) := none
  auth : Option (Option String) := none
  realtime : Option (Option String) := none
  conf_frontend : Option ℚ := none
  conf_backend : Option ℚ := none
  conf_database : Option ℚ := none
  conf_hosting : Option ℚ := none
  compatibility_issues : List String := []
  open_source_replacements : List String := []
deriving DecidableEq, Repr

/-- The string-valued category slots of a stack dict. -/
inductive Slot
  | frontend | backend | database | hosting | css
  | state_management | orm | auth | realtime
deriving DecidableEq, Repr

def slotVal (s : Stack) : Slot → Option (Option String)
  | .frontend => s.frontend
  | .backend => s.backend
  | .database => s.database
  | .hosting => s.hosting
  | .css => s.css
  | .state_management => s.state_management
  | .orm => s.orm
  | .auth => s.auth
  | .realtime => s.realtime

/-- The value of a slot when it is Python-truthy (present, not `None`,
not `""`), else `none`. -/
def truthyVal : Option (Option String) → Option String
  | some (some s) => if s = "" then none else some s
  | _ => none

/-- Python `stack.get(k)`: absent key and present `None` both give `None`. -/
def pyGet (v : Option (Option String)) : Option String := v.join

/-- The structured request handed to the advisor
(`user_input` in `analyze_and_recommend`); each field models
`user_input.get(...)` with its default. -/
structure UserInput where
  type : Option String
  description : Option String
  devices : Option (List String)

/-- The normalized requirement record produced by `_parse_requirements`. -/
structure Requirements where
  project_type : String
  target_devices : List String
  user_specified_frontend : List String
  user_specified_backend : List String
  user_specified_database : List String
  user_specified_hosting : List String
  realtime_constraint : Bool
  offline_constraint : Bool
deriving DecidableEq, Repr

/-- The `frontend_patterns` table, in source insertion order. -/
def frontend_patterns : List (String × List String) :=
  [("react", ["react", "jsx", "tsx"]),
   ("vue", ["vue", "nuxt"]),
   ("svelte", ["svelte", "sveltekit"]),
   ("angular", ["angular", "@angular"]),
   ("nextjs", ["next.js", "nextjs", "next"]),
   ("remix", ["remix"]),
   ("solid", ["solidjs", "solid"])]

/-- The `backend_patterns` table. -/
def backend_patterns : List (String × List String) :=
  [("fastapi", ["fastapi", "fast api"]),
   ("django", ["django"]),
   ("flask", ["flask"]),
   ("express", ["express", "node.js", "nodejs"]),
   ("nestjs", ["nest.js", "nestjs"]),
   ("spring", ["spring", "spring boot"]),
   ("rails", ["rails", "ruby on rails"]),
   ("laravel", ["laravel"]),
   ("rust", ["rust", "actix", "warp", "axum"]),
   ("go", ["golang", "go", "gin", "echo"])]

/-- The `database_patterns` table. -/
def database_patterns : List (String × List String) :=
  [("postgresql", ["postgres", "postgresql", "pg"]),
   ("mysql", ["mysql"]),
   ("mongodb", ["mongo", "mongodb"]),
   ("sqlite", ["sqlite"]),
   ("redis", ["redis"]),
   ("supabase", ["supabase"]),
   ("firebase", ["firebase", "firestore"]),
   ("planetscale", ["planetscale"]),
   ("turso", ["turso"]),
   ("neon", ["neon"])]

/-- The `hosting_patterns` table. -/
def hosting_patterns : List (String × List String) :=
  [("vercel", ["vercel"]),
   ("netlify", ["netlify"]),
   ("aws", ["aws", "amazon web services"]),
   ("gcp", ["google cloud", "gcp"]),
   ("azure", ["azure"]),
   ("railway", ["railway"]),
   ("fly.io", ["fly.io", "fly"]),
   ("render", ["render"]),
   ("cloudflare", ["cloudflare", "workers"])]

/-- A technology is detected when any of its keyword variants occurs in
the lowered text; detections are appended in table-iteration order. -/
def detect_mentions (text : String) (patterns : List (String × List String)) :
    List String :=
  patterns.filterMap fun p =>
    if p.2.any (fun kw => containsKw text kw) then some p.1 else none

/-- Model of `_parse_requirements` (tech_advisor.py lines 78-169). -/
def parse_requirements (u : UserInput) : Requirements :=
  let text := lowerStr (u.description.getD "")
  let devices0 := u.devices.getD ["web"]
  let devices1 :=
    if containsKw text "mobile" || containsKw text "ios" ||
        containsKw text "android" then
      devices0 ++ ["mobile"]
    else devices0
  let devices2 :=
    if containsKw text "desktop" || containsKw text "electron" ||
        containsKw text "tauri" then
      devices1 ++ ["desktop"]
    else devices1
  { project_type := u.type.getD "webapp"
    target_devices := devices2
    user_specified_frontend := detect_mentions text frontend_patterns
    user_specified_backend := detect_mentions text backend_patterns
    user_specified_database := detect_mentions text database_patterns
    user_specified_hosting := detect_mentions text hosting_patterns
    realtime_constraint := containsKw text "real-time" || containsKw text "websocket"
    offline_constraint := containsKw text "offline" }

/-- Persisted per-user preferences (`user_preferences.json`). -/
structure Preferences where
  language_preferences : List (String × ℚ)
  frontend_framework_preferences : List (String × ℚ)
  backend_framework_preferences : List (String × ℚ)
  database_preferences : List (String × ℚ)
  hosting_preferences : List (String × ℚ)
  open_source_bias : ℚ
  license_preferences : List String
  avoid_licenses : List String
  complexity_preference : String
  learning_rate : ℚ
deriving DecidableEq

/-- Model of `_create_default_preferences` (lines 182-229); the I/O write-back of
the defaults is a side effect not affecting the returned value. -/
def create_default_preferences : Preferences :=
  { language_preferences :=
      [("python", mkRat 9 10), ("typescript", mkRat 8 10), ("javascript", mkRat 7 10),
       ("rust", mkRat 6 10), ("go", mkRat 5 10)]
    frontend_framework_preferences :=
      [("react", mkRat 9 10), ("nextjs", mkRat 8 10), ("svelte", mkRat 7 10), ("vue", mkRat 6 10)]
    backend_framework_preferences :=
      [("fastapi", mkRat 9 10), ("express", mkRat 8 10), ("nestjs", mkRat 7 10), ("django", mkRat 6 10)]
    database_preferences :=
      [("postgresql", mkRat 9 10), ("sqlite", mkRat 8 10), ("mongodb", mkRat 6 10)]
    hosting_preferences :=
      [("vercel", mkRat 9 10), ("railway", mkRat 8 10), ("fly.io", mkRat 7 10),
       ("render", mkRat 7 10), ("netlify", mkRat 6 10)]
    open_source_bias := mkRat 9 10
    license_preferences := ["MIT", "Apache-2.0", "BSD-3-Clause"]
    avoid_licenses := ["GPL", "AGPL"]
    complexity_preference := "medium"
    learning_rate := mkRat 1 10 }

/-- Python `max(d.items(), key=lambda x: x[1])[0]` on an
insertion-ordered dict: the first entry of maximal score (`max` keeps the
incumbent on ties).  `none` models the `ValueError` raised on an empty
dict. -/
def pickMax (l : List (String × ℚ)) : Option String :=
  match l with
  | [] => none
  | x :: xs => some (xs.foldl (fun best y => if best.2 < y.2 then y else best) x).1

/-- The dict literal opening `_generate_recommendations` (lines 295-302):
primary slots present holding `None`, secondary slots absent. -/
def empty_recommendation : Stack :=
  { frontend := some none, backend := some none,
    database := some none, hosting := some none }

/-- Lines 309-312: copy the first-mentioned user-specified technology of
each category into the draft, at confidence 0.9. -/
def use_user_specified (req : Requirements) (s : Stack) : Stack :=
  let s :=
    match req.user_specified_frontend with
    | [] => s
    | t :: _ => { s with frontend := some (some t), conf_frontend := some (mkRat 9 10) }
  let s :=
    match req.user_specified_backend with
    | [] => s
    | t :: _ => { s with backend := some (some t), conf_backend := some (mkRat 9 10) }
  let s :=
    match req.user_specified_database with
    | [] => s
    | t :: _ => { s with database := some (some t), conf_database := some (mkRat 9 10) }
  match req.user_specified_hosting with
  | [] => s
  | t :: _ => { s with hosting := some (some t), conf_hosting := some (mkRat 9 10) }

/-- Lines 315-322: frontend fallback, confidence 0.8. -/
def frontend_fallback (req : Requirements) (prefs : Preferences) (s : Stack) :
    Option Stack :=
  if (truthyVal s.frontend).isNone &&
      (req.project_type == "webapp" || req.project_type == "mobile") then
    if req.target_devices.contains "mobile" then
      some { s with frontend := some (some "react-native"),
                    conf_frontend := some (mkRat 8 10) }
    else
      match pickMax prefs.frontend_framework_preferences with
      | some t => some { s with frontend := some (some t),
                                conf_frontend := some (mkRat 8 10) }
      | none => none
  else some s

/-- Lines 324-333: backend fallback, confidence 0.7. -/
def backend_fallback (prefs : Preferences) (detected_languages : List String)
    (s : Stack) : Option Stack :=
  if (truthyVal s.backend).isNone then
    if detected_languages.contains "python" then
      some { s with backend := some (some "fastapi"), conf_backend := some (mkRat 7 10) }
    else if detected_languages.contains "typescript" ||
        detected_languages.contains "javascript" then
      some { s with backend := some (some "express"), conf_backend := some (mkRat 7 10) }
    else
      match pickMax prefs.backend_framework_preferences with
      | some t => some { s with backend := some (some t),
                                conf_backend := some (mkRat 7 10) }
      | none => none
  else some s

/-- Lines 335-342: database fallback, confidence 0.7. -/
def database_fallback (req : Requirements) (prefs : Preferences) (s : Stack) :
    Option Stack :=
  if (truthyVal s.database).isNone then
    if req.realtime_constraint then
      some { s with database := some (some "postgresql"),
                    conf_database := some (mkRat 7 10) }
    else
      match pickMax prefs.database_preferences with
      | some t => some { s with database := some (some t),
                                conf_database := some (mkRat 7 10) }
      | none => none
  else some s

/-- Lines 344-347: hosting fallback, confidence 0.6. -/
def hosting_fallback (prefs : Preferences) (s : Stack) : Option Stack :=
  if (truthyVal s.hosting).isNone then
    match pickMax prefs.hosting_preferences with
    | some t => some { s with hosting := some (some t), conf_hosting := some (mkRat 6 10) }
    | none => none
  else some s

/-- Model of `_generate_recommendations` (lines 292-352).  The `patterns` argument
of the Python method is never read by its body, and the `tools` list is
outside every claim; both are omitted. -/
def generate_recommendations (req : Requirements) (prefs : Preferences)
    (detected_languages : List String) : Option Stack := do
  let s0 := use_user_specified req empty_recommendation
  let s1 ← frontend_fallback req prefs s0
  let s2 ← backend_fallback prefs detected_languages s1
  let s3 ← database_fallback req prefs s2
  hosting_fallback prefs s3

/-- Compatibility rule table (`compatibility.json`). -/
structure CompatibilityRules where
  incompatible_combinations : List String
  backend_database_support : List (String × List String)
  hosting_compatibility : List (String × List String)
  successful_combinations : List String
deriving DecidableEq

/-- Model of `_create_default_compatibility_rules` (lines 441-472). -/
def create_default_compatibility_rules : CompatibilityRules :=
  { incompatible_combinations := ["react+django", "vue+flask"]
    backend_database_support :=
      [("fastapi", ["postgresql", "mysql", "sqlite", "mongodb"]),
       ("django", ["postgresql", "mysql", "sqlite"]),
       ("flask", ["postgresql", "mysql", "sqlite", "mongodb"]),
       ("express", ["postgresql", "mysql", "mongodb", "sqlite"]),
       ("nestjs", ["postgresql", "mysql", "mongodb", "sqlite"])]
    hosting_compatibility :=
      [("vercel", ["nextjs", "react", "vue", "svelte", "express"]),
       ("netlify", ["react", "vue", "svelte", "gatsby"]),
       ("railway", ["fastapi", "django", "express", "nestjs"]),
       ("fly.io", ["fastapi", "django", "express", "nestjs", "rust", "go"])]
    successful_combinations :=
      ["react+fastapi+postgresql+vercel", "nextjs+postgresql+vercel",
       "svelte+fastapi+sqlite+railway", "vue+express+mongodb+netlify"] }

/-- Model of `_validate_compatibility` (lines 400-428). -/
def validate_compatibility (s : Stack) (rules : CompatibilityRules) : Stack :=
  let issues1 : List String :=
    match truthyVal s.frontend, truthyVal s.backend with
    | some f, some b =>
        if rules.incompatible_combinations.contains (f ++ "+" ++ b) then
          [f ++ " and " ++ b ++ " have known compatibility issues"]
        else []
    | _, _ => []
  let issues2 : List String :=
    match truthyVal s.backend, truthyVal s.database with
    | some b, some d =>
        match lookupStr b rules.backend_database_support with
        | some supported =>
            if supported.contains d then []
            else [b ++ " has limited support for " ++ d]
        | none => []
    | _, _ => []
  { s with compatibility_issues := issues1 ++ issues2 }

/-- Lines 485-491: CSS framework lookup keyed on the chosen frontend. -/
def css_recommendations : List (String × String) :=
  [("react", "tailwindcss"), ("nextjs", "tailwindcss"), ("vue", "tailwindcss"),
   ("svelte", "tailwindcss"), ("angular", "angular-material")]

/-- Lines 484-492: add a CSS framework when a frontend is chosen and the
`css` slot is not already truthy. -/
def fill_css (s : Stack) : Stack :=
  match truthyVal s.frontend with
  | some f =>
      if (truthyVal s.css).isSome then s
      else { s with css := some (some (lookupStrD f css_recommendations "tailwindcss")) }
  | none => s

/-- Lines 495-498: state management — note the assignment carries no
guard on a pre-existing `state_management` value. -/
def fill_state_management (req : Requirements) (s : Stack) : Stack :=
  if (pyGet s.frontend = some "react" ∨ pyGet s.frontend = some "nextjs") ∧
      req.project_type ≠ "simple" then
    { s with state_management := some (some "zustand") }
  else if pyGet s.frontend = some "vue" then
    { s with state_management := some (some "pinia") }
  else s

/-- Lines 502-507: the two-level (backend, database) ORM table. -/
def orm_recommendations : List (String × List (String × String)) :=
  [("fastapi", [("postgresql", "sqlalchemy"), ("sqlite", "sqlalchemy"),
               ("mongodb", "motor")]),
   ("django", [("postgresql", "django-orm"), ("mysql", "django-orm"),
              ("sqlite", "django-orm")]),
   ("express", [("postgresql", "prisma"), ("mysql", "prisma"),
               ("mongodb", "mongoose")]),
   ("nestjs", [("postgresql", "typeorm"), ("mysql", "typeorm"),
              ("mongodb", "mongoose")])]

/-- Lines 501-512: ORM — assigned (unguarded) whenever backend and
database are both truthy and both table axes hit. -/
def fill_orm (s : Stack) : Stack :=
  match truthyVal s.backend, truthyVal s.database with
  | some b, some d =>
      match lookupStr b orm_recommendations with
      | some inner =>
          match lookupStr d inner with
          | some o => { s with orm := some (some o) }
          | none => s
      | none => s
  | _, _ => s

/-- Lines 515-521: authentication, only when the `auth` slot is falsy. -/
def fill_auth (req : Requirements) (s : Stack) : Stack :=
  if (truthyVal s.auth).isNone ∧
      (req.project_type = "webapp" ∨ req.project_type = "mobile") then
    if pyGet s.database = some "supabase" then
      { s with auth := some (some "supabase-auth") }
    else if pyGet s.database = some "firebase" then
      { s with auth := some (some "firebase-auth") }
    else { s with auth := some (some "jwt") }
  else s

/-- Lines 524-528: realtime transport, only when required and absent. -/
def fill_realtime (req : Requirements) (s : Stack) : Stack :=
  if req.realtime_constraint ∧ (truthyVal s.realtime).isNone then
    if pyGet s.backend = some "fastapi" ∨ pyGet s.backend = some "express" ∨
        pyGet s.backend = some "nestjs" then
      { s with realtime := some (some "websockets") }
    else { s with realtime := some (some "sse") }
  else s

/-- Model of `_fill_missing_pieces` (lines 474-530): the five slot passes in
source order. -/
def fill_missing_pieces (s : Stack) (req : Requirements) : Stack :=
  fill_realtime req (fill_auth req (fill_orm (fill_state_management req (fill_css s))))

/-- Lines 541-546: the proprietary-to-open substitution table. -/
def open_source_alternatives : List (String × String) :=
  [("firebase", "supabase"), ("auth0", "supabase-auth"),
   ("mongodb-atlas", "postgresql"), ("vercel", "railway")]

/-- Single-pass substitution of one slot (lines 551-555): applies only to
truthy string values found in the table. -/
def substitute (v : Option (Option String)) : Option (Option String) :=
  match truthyVal v with
  | some t =>
      match lookupStr t open_source_alternatives with
      | some alt => some (some alt)
      | none => v
  | none => v

/-- The replacement note recorded for one slot (line 555). -/
def substitution_note (v : Option (Option String)) : List String :=
  match truthyVal v with
  | some t =>
      match lookupStr t open_source_alternatives with
      | some alt => ["Replaced " ++ t ++ " with " ++ alt ++ " (open source preference)"]
      | none => []
  | none => []

/-- Model of `_apply_open_source_bias` (lines 532-558), with the bias read from
the preference store passed explicitly.  Replacement notes are collected
over the string-valued slots in dict insertion order. -/
def apply_open_source_bias (bias : ℚ) (s : Stack) : Stack :=
  if bias < mkRat 1 2 then s
  else
    { s with
      frontend := substitute s.frontend
      backend := substitute s.backend
      database := substitute s.database
      hosting := substitute s.hosting
      css := substitute s.css
      state_management := substitute s.state_management
      orm := substitute s.orm
      auth := substitute s.auth
      realtime := substitute s.realtime
      open_source_replacements :=
        substitution_note s.frontend ++ substitution_note s.backend ++
        substitution_note s.database ++ substitution_note s.hosting ++
        substitution_note s.css ++ substitution_note s.state_management ++
        substitution_note s.orm ++ substitution_note s.auth ++
        substitution_note s.realtime }

/-- The learned-pattern store (`learned_patterns.json`).  Dicts of counts
are insertion-ordered association lists; `project_type_associations` is
`Option` because the default store (line 234) lacks that key.  The
`usage_frequency` key-existence guard at line 568 makes an absent
`usage_frequency` behave as the empty dict, so it is modelled plain. -/
structure Patterns where
  successful_combinations : List (String × Nat)
  failed_combinations : List (String × Nat)
  usage_frequency : List (String × Nat)
  project_type_associations : Option (List (String × List (String × Nat)))
deriving DecidableEq

/-- The default pattern store (lines 234 and 240). -/
def default_patterns : Patterns :=
  { successful_combinations := [], failed_combinations := [],
    usage_frequency := [], project_type_associations := none }

/-- One slot of the combination signature (line 565):
`final_stack.get(slot, 'none')` interpolated into an f-string.  The
`'none'` default fires only when the key is absent; a key present holding
`None` renders as `"None"` (`str(None)`). -/
def slotGet : Option (Option String) → String
  | none => "none"
  | some none => "None"
  | some (some s) => s

/-- The combination signature `combo_key` of line 565. -/
def comboKey (st : Stack) : String :=
  slotGet st.frontend ++ "+" ++ slotGet st.backend ++ "+" ++ slotGet st.database

/-- Dict update `d[k] = d.get(k, 0) + 1` on an insertion-ordered count dict. -/
def bump (k : String) : List (String × Nat) → List (String × Nat)
  | [] => [(k, 1)]
  | (a, v) :: rest =>
      if a = k then (a, v + 1) :: rest else (a, v) :: bump k rest

/-- Lines 577-582 for the nested per-project-type map: create the
project-type entry if missing, then bump the signature count inside it. -/
def bumpOuter (pt combo : String) :
    List (String × List (String × Nat)) → List (String × List (String × Nat))
  | [] => [(pt, [(combo, 1)])]
  | (a, m) :: rest =>
      if a = pt then (a, bump combo m) :: rest else (a, m) :: bumpOuter pt combo rest

/-- Model of `_learn_from_interaction` (lines 560-586), as the pattern-store
transition it performs (the persisting write is I/O). -/
def learn_from_interaction (req : Requirements) (final_stack : Stack)
    (p : Patterns) : Patterns :=
  let combo := comboKey final_stack
  { p with
    usage_frequency := bump combo p.usage_frequency
    project_type_associations :=
      some (bumpOuter req.project_type combo (p.project_type_associations.getD [])) }

/-- Iteration: `n` successive recommendation calls with the same requirements and
final stack, acting on the pattern store. -/
def learnN : Nat → Requirements → Stack → Patterns → Patterns
  | 0, _, _, p => p
  | n + 1, req, st, p => learn_from_interaction req st (learnN n req st p)

/-- The count recorded under a key in a count dict (`d.get(k, 0)`). -/
def countOf : List (String × Nat) → String → Nat
  | [], _ => 0
  | (a, v) :: rest, k => if a = k then v else countOf rest k

/-- The inner count dict stored under a project type (empty if absent). -/
def outerGet : List (String × List (String × Nat)) → String → List (String × Nat)
  | [], _ => []
  | (a, m) :: rest, k => if a = k then m else outerGet rest k

/-- The count recorded for (project type, signature) in the nested map. -/
def nestedCount (p : Patterns) (pt combo : String) : Nat :=
  countOf (outerGet (p.project_type_associations.getD []) pt) combo

/-- Complexity score tables (lines 663-673). -/
def frontend_complexity : List (String × Nat) :=
  [("react", 3), ("nextjs", 4), ("vue", 3), ("svelte", 2), ("angular", 5)]

def backend_complexity : List (String × Nat) :=
  [("fastapi", 3), ("django", 4), ("flask", 2), ("express", 3), ("nestjs", 4)]

def database_complexity : List (String × Nat) :=
  [("sqlite", 1), ("postgresql", 3), ("mysql", 3), ("mongodb", 4)]

/-- Lines 678-682: a category contributes its table score when its slot
is truthy and its technology is a key of the category's table. -/
def componentScore (tbl : List (String × Nat)) (slot : Option (Option String)) :
    Option Nat :=
  match truthyVal slot with
  | some t => lookupStr t tbl
  | none => none

/-- The scores of the contributing components, in category order. -/
def complexityParts (s : Stack) : List Nat :=
  [componentScore frontend_complexity s.frontend,
   componentScore backend_complexity s.backend,
   componentScore database_complexity s.database].filterMap id

def totalComplexityScore (s : Stack) : Nat := (complexityParts s).sum

def componentCount (s : Stack) : Nat := (complexityParts s).length

structure ComplexityEstimate where
  level : String
  score : ℚ
  estimated_dev_time : String
deriving DecidableEq

/-- Model of `_estimate_complexity` (lines 661-701): the average is guarded by
`max(component_count, 1)`; the level thresholds are 2 and 3.5. -/
def estimate_complexity (s : Stack) : ComplexityEstimate :=
  let avg : ℚ := (totalComplexityScore s : ℚ) / (max (componentCount s) 1 : ℚ)
  let level : String :=
    if avg ≤ 2 then "simple" else if avg ≤ 7/2 then "medium" else "complex"
  { level := level
    score := avg
    estimated_dev_time :=
      if level = "simple" then "2-4 weeks"
      else if level = "medium" then "6-10 weeks"
      else "12+ weeks" }

/-- The state of a persisted store file as the loaders see it. -/
inductive StoreFile (α : Type)
  | absent
  | corrupt
  | valid (content : α)

/-- Model of `_load_user_preferences` (lines 171-180): a missing file and a
`json.JSONDecodeError` both fall back to `_create_default_preferences`. -/
def load_user_preferences : StoreFile Preferences → Preferences
  | .absent => create_default_preferences
  | .corrupt => create_default_preferences
  | .valid p => p

/-- Model of `_load_learned_patterns` (lines 231-240). -/
def load_learned_patterns : StoreFile Patterns → Patterns
  | .absent => default_patterns
  | .corrupt => default_patterns
  | .valid p => p

/-- Model of `_load_compatibility_rules` (lines 430-439). -/
def load_compatibility_rules : StoreFile CompatibilityRules → CompatibilityRules
  | .absent => create_default_compatibility_rules
  | .corrupt => create_default_compatibility_rules
  | .valid r => r

/-- The stack-producing part of `analyze_and_recommend` (lines 34-76)
with the three stores at their defaults: parse, generate, validate, fill,
apply the open-source bias.  `detected_languages` abstracts the
filesystem scan of `_analyze_project_context`. -/
def recommend_stack (u : UserInput) (detected_languages : List String) :
    Option Stack :=
  let req := parse_requirements u
  let prefs := load_user_preferences .absent
  let rules := load_compatibility_rules .absent
  (generate_recommendations req prefs detected_languages).map fun draft =>
    apply_open_source_bias prefs.open_source_bias
      (fill_missing_pieces (validate_compatibility draft rules) req)

/-- The requirement-slot lists produced by the claim sentence of C1: the
claim words the signature as using the literal `"none"` whenever the slot
is absent *or null*.  Declared only to compare the claim's reading with
the implementation's `comboKey`. -/
def slotClaim : Option (Option String) → String
  | some (some s) => s
  | _ => "none"

/-- The combination signature as claim C1 describes it. -/
def sigClaim (st : Stack) : String :=
  slotClaim st.frontend ++ "+" ++ slotClaim st.backend ++ "+" ++ slotClaim st.database

/-- The value the css pass leaves in the `css` slot. -/
def cssNew (s : Stack) : Option (Option String) :=
  match truthyVal s.frontend with
  | some f =>
      if (truthyVal s.css).isSome then s.css
      else some (some (lookupStrD f css_recommendations "tailwindcss"))
  | none => s.css

/-- The value the state-management pass leaves in its slot. -/
def smNew (req : Requirements) (s : Stack) : Option (Option String) :=
  if (pyGet s.frontend = some "react" ∨ pyGet s.frontend = some "nextjs") ∧
      req.project_type ≠ "simple" then some (some "zustand")
  else if pyGet s.frontend = some "vue" then some (some "pinia")
  else s.state_management

/-- The value the ORM pass leaves in its slot. -/
def ormNew (s : Stack) : Option (Option String) :=
  match truthyVal s.backend, truthyVal s.database with
  | some b, some d =>
      match lookupStr b orm_recommendations with
      | some inner =>
          match lookupStr d inner with
          | some o => some (some o)
          | none => s.orm
      | none => s.orm
  | _, _ => s.orm

/-- The value the auth pass leaves in its slot. -/
def authNew (req : Requirements) (s : Stack) : Option (Option String) :=
  if (truthyVal s.auth).isNone ∧
      (req.project_type = "webapp" ∨ req.project_type = "mobile") then
    if pyGet s.database = some "supabase" then some (some "supabase-auth")
    else if pyGet s.database = some "firebase" then some (some "firebase-auth")
    else some (some "jwt")
  else s.auth

/-- The value the realtime pass leaves in its slot. -/
def rtNew (req : Requirements) (s : Stack) : Option (Option String) :=
  if req.realtime_constraint ∧ (truthyVal s.realtime).isNone then
    if pyGet s.backend = some "fastapi" ∨ pyGet s.backend = some "express" ∨
        pyGet s.backend = some "nestjs" then some (some "websockets")
    else some (some "sse")
  else s.realtime

theorem fill_css_eq (s : Stack) : fill_css s = { s with css := cssNew s } := by
  unfold fill_css cssNew
  repeat' split
  all_goals rfl

theorem fill_sm_eq (req : Requirements) (s : Stack) :
    fill_state_management req s = { s with state_management := smNew req s } := by
  unfold fill_state_management smNew
  repeat' split
  all_goals rfl

theorem fill_orm_eq (s : Stack) : fill_orm s = { s with orm := ormNew s } := by
  unfold fill_orm ormNew
  repeat' split
  all_goals rfl

theorem fill_auth_eq (req : Requirements) (s : Stack) :
    fill_auth req s = { s with auth := authNew req s } := by
  unfold fill_auth authNew
  repeat' split
  all_goals rfl

theorem fill_rt_eq (req : Requirements) (s : Stack) :
    fill_realtime req s = { s with realtime := rtNew req s } := by
  unfold fill_realtime rtNew
  repeat' split
  all_goals rfl

theorem smNew_congr (req : Requirements) (s₁ s₂ : Stack)
    (h1 : s₁.frontend = s₂.frontend)
    (h2 : s₁.state_management = s₂.state_management) :
    smNew req s₁ = smNew req s₂ := by
  unfold smNew; rw [pyGet, h1, h2, ← pyGet]

theorem ormNew_congr (s₁ s₂ : Stack)
    (h1 : s₁.backend = s₂.backend) (h2 : s₁.database = s₂.database)
    (h3 : s₁.orm = s₂.orm) :
    ormNew s₁ = ormNew s₂ := by
  unfold ormNew; rw [h1, h2, h3]

theorem authNew_congr (req : Requirements) (s₁ s₂ : Stack)
    (h1 : s₁.database = s₂.database) (h2 : s₁.auth = s₂.auth) :
    authNew req s₁ = authNew req s₂ := by
  unfold authNew; rw [pyGet, h1, h2, ← pyGet]

theorem rtNew_congr (req : Requirements) (s₁ s₂ : Stack)
    (h1 : s₁.backend = s₂.backend) (h2 : s₁.realtime = s₂.realtime) :
    rtNew req s₁ = rtNew req s₂ := by
  unfold rtNew; rw [pyGet, h1, h2, ← pyGet]

/-- The gap filler, characterized slot by slot: each pass reads only the
primary slots (which no pass writes) and its own slot. -/
theorem fill_eq (s : Stack) (req : Requirements) :
    fill_missing_pieces s req =
      { s with css := cssNew s, state_management := smNew req s,
               orm := ormNew s, auth := authNew req s,
               realtime := rtNew req s } := by
  unfold fill_missing_pieces
  rw [fill_css_eq, fill_sm_eq, fill_orm_eq, fill_auth_eq, fill_rt_eq]
  rw [smNew_congr req _ s rfl rfl, ormNew_congr _ s rfl rfl rfl,
      authNew_congr req _ s rfl rfl, rtNew_congr req _ s rfl rfl]
  rfl

theorem cssNew_congr (s₁ s₂ : Stack)
    (h1 : s₁.frontend = s₂.frontend) (h2 : s₁.css = s₂.css) :
    cssNew s₁ = cssNew s₂ := by
  unfold cssNew; rw [h1, h2]

theorem truthyVal_of_ne {v : String} (h : v ≠ "") :
    truthyVal (some (some v)) = some v := by
  simp [truthyVal, h]

theorem cssChoice_ne (f : String) :
    lookupStrD f css_recommendations "tailwindcss" ≠ "" := by
  simp only [lookupStrD, css_recommendations, lookupStr]
  repeat' split
  all_goals decide

theorem cssNew_fill (s : Stack) (req : Requirements) :
    cssNew (fill_missing_pieces s req) = (fill_missing_pieces s req).css := by
  rw [fill_eq]
  refine (cssNew_congr _ { s with css := cssNew s } rfl rfl).trans ?_
  show cssNew { s with css := cssNew s } = cssNew s
  unfold cssNew
  dsimp only
  cases hf : truthyVal s.frontend with
  | none => rfl
  | some f =>
      dsimp only
      have hs : (truthyVal (if (truthyVal s.css).isSome = true then s.css
          else some (some (lookupStrD f css_recommendations "tailwindcss")))).isSome = true := by
        cases hc : (truthyVal s.css).isSome with
        | true => simp [hc]
        | false =>
            simp only [hc, Bool.false_eq_true, if_false]
            rw [truthyVal_of_ne (cssChoice_ne f)]
            rfl
      rw [if_pos hs]

theorem smNew_fill (s : Stack) (req : Requirements) :
    smNew req (fill_missing_pieces s req) = (fill_missing_pieces s req).state_management := by
  rw [fill_eq]
  refine (smNew_congr req _ { s with state_management := smNew req s } rfl rfl).trans ?_
  show smNew req { s with state_management := smNew req s } = smNew req s
  unfold smNew
  dsimp only
  repeat' split
  all_goals simp_all

theorem ormNew_fill (s : Stack) (req : Requirements) :
    ormNew (fill_missing_pieces s req) = (fill_missing_pieces s req).orm := by
  rw [fill_eq]
  refine (ormNew_congr _ { s with orm := ormNew s } rfl rfl rfl).trans ?_
  show ormNew { s with orm := ormNew s } = ormNew s
  unfold ormNew
  dsimp only
  repeat' split
  all_goals simp_all

theorem authNew_fill (s : Stack) (req : Requirements) :
    authNew req (fill_missing_pieces s req) = (fill_missing_pieces s req).auth := by
  rw [fill_eq]
  refine (authNew_congr req _ { s with auth := authNew req s } rfl rfl).trans ?_
  show authNew req { s with auth := authNew req s } = authNew req s
  unfold authNew
  dsimp only
  cases hpt : decide (req.project_type = "webapp" ∨ req.project_type = "mobile") with
  | false =>
      have hpt' : ¬(req.project_type = "webapp" ∨ req.project_type = "mobile") :=
        of_decide_eq_false hpt
      simp [hpt']
  | true =>
      have hpt' : req.project_type = "webapp" ∨ req.project_type = "mobile" :=
        of_decide_eq_true hpt
      cases ha : (truthyVal s.auth).isNone with
      | false => simp [ha, hpt']
      | true =>
          simp only [ha, hpt', and_true, true_and, if_true]
          repeat' split
          all_goals simp [truthyVal]

theorem rtNew_fill (s : Stack) (req : Requirements) :
    rtNew req (fill_missing_pieces s req) = (fill_missing_pieces s req).realtime := by
  rw [fill_eq]
  refine (rtNew_congr req _ { s with realtime := rtNew req s } rfl rfl).trans ?_
  show rtNew req { s with realtime := rtNew req s } = rtNew req s
  unfold rtNew
  dsimp only
  cases hrc : req.realtime_constraint with
  | false => simp [hrc]
  | true =>
      cases hr : (truthyVal s.realtime).isNone with
      | false => simp [hr]
      | true =>
          simp only [hrc, hr, and_true, true_and, if_true]
          repeat' split
          all_goals simp [truthyVal]

/-- C3: gap filling is idempotent: applying `_fill_missing_pieces` a
second time with the same requirement record changes nothing. -/
theorem c3_fill_idempotent (s : Stack) (req : Requirements) :
    fill_missing_pieces (fill_missing_pieces s req) req = fill_missing_pieces s req := by
  conv_lhs => rw [fill_eq]
  rw [cssNew_fill, smNew_fill, ormNew_fill, authNew_fill, rtNew_fill]

/-- C2 counterexample: `_fill_missing_pieces` does overwrite a
pre-existing non-null slot value.  A stack carrying
`state_management = "redux"` with `frontend = "react"` under a `webapp`
project has its `state_management` slot replaced by `"zustand"`
(the assignment at line 496 carries no has-value guard). -/
theorem c2_no_overwrite_counterexample :
    ({ frontend := some (some "react"),
       state_management := some (some "redux") } : Stack).state_management
        = some (some "redux") ∧
    (fill_missing_pieces
      { frontend := some (some "react"), state_management := some (some "redux") }
      { project_type := "webapp", target_devices := ["web"],
        user_specified_frontend := [], user_specified_backend := [],
        user_specified_database := [], user_specified_hosting := [],
        realtime_constraint := false, offline_constraint := false }).state_management
        = some (some "zustand") ∧
    some (some "zustand") ≠ (some (some "redux") : Option (Option String)) := by
  refine ⟨rfl, by decide, by decide⟩

/-- C2 as amended: the no-overwrite guarantee holds for the `css`,
`auth` and `realtime` slots (whose assignments are guarded on the slot
being falsy), for any pre-existing truthy (non-null, non-empty) value;
the `state_management` and `orm` slots are recomputed from the primary
slots and may be overwritten. -/
theorem c2_no_overwrite_amended (s : Stack) (req : Requirements) (v : String) :
    (s.css = some (some v) → v ≠ "" →
      (fill_missing_pieces s req).css = some (some v)) ∧
    (s.auth = some (some v) → v ≠ "" →
      (fill_missing_pieces s req).auth = some (some v)) ∧
    (s.realtime = some (some v) → v ≠ "" →
      (fill_missing_pieces s req).realtime = some (some v)) := by
  rw [fill_eq]
  refine ⟨fun hc hv => ?_, fun ha hv => ?_, fun hr hv => ?_⟩
  · show cssNew s = some (some v)
    unfold cssNew
    rw [hc, truthyVal_of_ne hv]
    cases truthyVal s.frontend <;> rfl
  · show authNew req s = some (some v)
    unfold authNew
    rw [ha, truthyVal_of_ne hv]
    rfl
  · show rtNew req s = some (some v)
    unfold rtNew
    rw [hr, truthyVal_of_ne hv]
    simp

theorem c2_no_overwrite_amended_witness :
    (fill_missing_pieces
      { css := some (some "bootstrap"), auth := some (some "oauth"),
        realtime := some (some "pusher") }
      { project_type := "webapp", target_devices := ["web"],
        user_specified_frontend := [], user_specified_backend := [],
        user_specified_database := [], user_specified_hosting := [],
        realtime_constraint := true, offline_constraint := false }).css
      = some (some "bootstrap") ∧
    (fill_missing_pieces
      { css := some (some "bootstrap"), auth := some (some "oauth"),
        realtime := some (some "pusher") }
      { project_type := "webapp", target_devices := ["web"],
        user_specified_frontend := [], user_specified_backend := [],
        user_specified_database := [], user_specified_hosting := [],
        realtime_constraint := true, offline_constraint := false }).auth
      = some (some "oauth") ∧
    (fill_missing_pieces
      { css := some (some "bootstrap"), auth := some (some "oauth"),
        realtime := some (some "pusher") }
      { project_type := "webapp", target_devices := ["web"],
        user_specified_frontend := [], user_specified_backend := [],
        user_specified_database := [], user_specified_hosting := [],
        realtime_constraint := true, offline_constraint := false }).realtime
      = some (some "pusher") := by
  have h := c2_no_overwrite_amended
    { css := some (some "bootstrap"), auth := some (some "oauth"),
      realtime := some (some "pusher") }
    { project_type := "webapp", target_devices := ["web"],
      user_specified_frontend := [], user_specified_backend := [],
      user_specified_database := [], user_specified_hosting := [],
      realtime_constraint := true, offline_constraint := false }
  exact ⟨(h "bootstrap").1 rfl (by decide),
         (h "oauth").2.1 rfl (by decide),
         (h "pusher").2.2 rfl (by decide)⟩

theorem countOf_bump (k : String) (l : List (String × Nat)) (k' : String) :
    countOf (bump k l) k' = countOf l k' + (if k' = k then 1 else 0) := by
  induction l with
  | nil =>
      by_cases h : k = k'
      · subst h; simp [bump, countOf]
      · simp [bump, countOf, h, Ne.symm h]
  | cons hd tl ih =>
      obtain ⟨a, v⟩ := hd
      by_cases hak : a = k
      · subst hak
        by_cases h' : a = k'
        · subst h'; simp [bump, countOf]
        · simp [bump, countOf, h', Ne.symm h']
      · by_cases h' : a = k'
        · subst h'; simp [bump, countOf, hak, Ne.symm hak]
        · simp [bump, countOf, hak, h', ih]

theorem outerGet_bumpOuter (pt combo : String)
    (l : List (String × List (String × Nat))) (pt' : String) :
    outerGet (bumpOuter pt combo l) pt' =
      if pt' = pt then bump combo (outerGet l pt) else outerGet l pt' := by
  induction l with
  | nil =>
      by_cases h : pt = pt'
      · subst h; simp [bumpOuter, outerGet, bump]
      · simp [bumpOuter, outerGet, h, Ne.symm h]
  | cons hd tl ih =>
      obtain ⟨a, m⟩ := hd
      by_cases hak : a = pt
      · subst hak
        by_cases h' : a = pt'
        · subst h'; simp [bumpOuter, outerGet]
        · simp [bumpOuter, outerGet, h', Ne.symm h']
      · by_cases h' : a = pt'
        · subst h'; simp [bumpOuter, outerGet, hak, Ne.symm hak]
        · simp [bumpOuter, outerGet, hak, h', ih]

/-- C7: each recommendation's learning step increments exactly the final
stack's signature counter by one in `usage_frequency`, exactly the
(project type, signature) counter by one in `project_type_associations`,
leaves every other counter unchanged (so counts never decrease), and `n`
successive calls with the same signature add exactly `n`. -/
theorem c7_pattern_accumulation (req : Requirements) (st : Stack) (p : Patterns) :
    (∀ k, countOf (learn_from_interaction req st p).usage_frequency k =
        countOf p.usage_frequency k + (if k = comboKey st then 1 else 0)) ∧
    (∀ pt k, nestedCount (learn_from_interaction req st p) pt k =
        nestedCount p pt k +
          (if pt = req.project_type ∧ k = comboKey st then 1 else 0)) ∧
    (∀ n, countOf (learnN n req st p).usage_frequency (comboKey st) =
        countOf p.usage_frequency (comboKey st) + n) := by
  refine ⟨fun k => ?_, fun pt k => ?_, fun n => ?_⟩
  · exact countOf_bump _ _ _
  · show countOf (outerGet (bumpOuter req.project_type (comboKey st)
        (p.project_type_associations.getD [])) pt) k = _
    rw [outerGet_bumpOuter]
    by_cases hpt : pt = req.project_type
    · subst hpt
      rw [if_pos rfl, countOf_bump]
      by_cases hk : k = comboKey st
      · rw [if_pos hk, if_pos ⟨rfl, hk⟩]; rfl
      · rw [if_neg hk, if_neg (fun hh => hk hh.2)]; rfl
    · rw [if_neg hpt, if_neg (fun hh => hpt hh.1)]; rfl
  · induction n with
    | zero => rfl
    | succ m ih =>
        show countOf (learn_from_interaction req st (learnN m req st p)).usage_frequency
            (comboKey st) = _
        rw [show (learn_from_interaction req st (learnN m req st p)).usage_frequency =
              bump (comboKey st) (learnN m req st p).usage_frequency from rfl,
            countOf_bump, ih, if_pos rfl]
        omega

/-- A slot that is not present-with-null renders identically under the
implementation's `.get(slot, 'none')` and the claim's
"name or literal none" reading. -/
theorem slotGet_eq_slotClaim (v : Option (Option String)) (h : v ≠ some none) :
    slotGet v = slotClaim v := by
  match v with
  | none => rfl
  | some none => exact absurd rfl h
  | some (some s) => rfl

theorem comboKey_eq_sigClaim (st : Stack)
    (h1 : st.frontend ≠ some none) (h2 : st.backend ≠ some none)
    (h3 : st.database ≠ some none) : comboKey st = sigClaim st := by
  unfold comboKey sigClaim
  rw [slotGet_eq_slotClaim _ h1, slotGet_eq_slotClaim _ h2,
      slotGet_eq_slotClaim _ h3]

/-- C1 counterexample: a final stack whose `frontend` key is present but
holds `None` (reachable: an `"api"` project never fills the frontend) is
recorded under the signature `"None+fastapi+postgresql"` — `str(None)`,
not the literal `"none"` the claim states for a null slot. -/
theorem c1_signature_counterexample :
    ((recommend_stack
        { type := some "api", description := some "a fastapi app with postgres",
          devices := some ["web"] } []).map
      (fun s => countOf (learn_from_interaction
          (parse_requirements
            { type := some "api", description := some "a fastapi app with postgres",
              devices := some ["web"] })
          s default_patterns).usage_frequency "none+fastapi+postgresql")
      = some 0) ∧
    ((recommend_stack
        { type := some "api", description := some "a fastapi app with postgres",
          devices := some ["web"] } []).map
      (fun s => countOf (learn_from_interaction
          (parse_requirements
            { type := some "api", description := some "a fastapi app with postgres",
              devices := some ["web"] })
          s default_patterns).usage_frequency "None+fastapi+postgresql")
      = some 1) ∧
    ((recommend_stack
        { type := some "api", description := some "a fastapi app with postgres",
          devices := some ["web"] } []).map comboKey
      = some "None+fastapi+postgresql") ∧
    ((recommend_stack
        { type := some "api", description := some "a fastapi app with postgres",
          devices := some ["web"] } []).map sigClaim
      = some "none+fastapi+postgresql") := by
  exact ⟨by decide, by decide, by decide, by decide⟩

/-- C1 as amended: the literal `"none"` is substituted only for a slot
whose key is absent; for such stacks (no slot present-with-null) the
signature recorded in `usage_frequency` is exactly the claim's
`frontend+backend+database` rendering, and its counter is incremented
by one.  A slot present holding null renders as `"None"` instead. -/
theorem c1_signature_amended (req : Requirements) (st : Stack) (p : Patterns)
    (h1 : st.frontend ≠ some none) (h2 : st.backend ≠ some none)
    (h3 : st.database ≠ some none) :
    comboKey st = sigClaim st ∧
    countOf (learn_from_interaction req st p).usage_frequency (sigClaim st) =
      countOf p.usage_frequency (sigClaim st) + 1 := by
  have he := comboKey_eq_sigClaim st h1 h2 h3
  refine ⟨he, ?_⟩
  show countOf (bump (comboKey st) p.usage_frequency) (sigClaim st) = _
  rw [countOf_bump, he, if_pos rfl]

theorem c1_signature_amended_witness :
    comboKey { frontend := some (some "react"), backend := some (some "fastapi"),
               database := some (some "postgresql") } =
      sigClaim { frontend := some (some "react"), backend := some (some "fastapi"),
                 database := some (some "postgresql") } ∧
    countOf (learn_from_interaction
        { project_type := "webapp", target_devices := ["web"],
          user_specified_frontend := [], user_specified_backend := [],
          user_specified_database := [], user_specified_hosting := [],
          realtime_constraint := false, offline_constraint := false }
        { frontend := some (some "react"), backend := some (some "fastapi"),
          database := some (some "postgresql") }
        default_patterns).usage_frequency
      (sigClaim { frontend := some (some "react"), backend := some (some "fastapi"),
                  database := some (some "postgresql") }) =
    countOf default_patterns.usage_frequency
      (sigClaim { frontend := some (some "react"), backend := some (some "fastapi"),
                  database := some (some "postgresql") }) + 1 :=
  c1_signature_amended
    { project_type := "webapp", target_devices := ["web"],
      user_specified_frontend := [], user_specified_backend := [],
      user_specified_database := [], user_specified_hosting := [],
      realtime_constraint := false, offline_constraint := false }
    { frontend := some (some "react"), backend := some (some "fastapi"),
      database := some (some "postgresql") }
    default_patterns (by decide) (by decide) (by decide)

/-- C5 counterexample: the Requirement Parser seeds `target_devices`
from the caller-supplied `devices` list; for the input
`{type: "webapp", description: "", devices: ["mobile"]}` the produced
record's `target_devices` is `["mobile"]` — `"web"` is not present. -/
theorem c5_target_devices_counterexample :
    (parse_requirements
      { type := some "webapp", description := some "",
        devices := some ["mobile"] }).target_devices = ["mobile"] ∧
    ¬ ("web" ∈ (parse_requirements
      { type := some "webapp", description := some "",
        devices := some ["mobile"] }).target_devices) := by
  exact ⟨by decide, by decide⟩

/-- C5 as amended: `target_devices` starts as the caller-supplied
`devices` list (defaulting to `["web"]` only when the field is absent)
and is only ever extended with `"mobile"` and `"desktop"` by keyword
detection; so every entry comes from the supplied list or is one of
those two literals (duplicates are possible), and `"web"` is guaranteed
present only when the `devices` field is absent. -/
theorem c5_target_devices_amended (u : UserInput) :
    (∀ x, x ∈ (parse_requirements u).target_devices →
      x ∈ u.devices.getD ["web"] ∨ x = "mobile" ∨ x = "desktop") ∧
    (u.devices = none → "web" ∈ (parse_requirements u).target_devices) := by
  have hte : (parse_requirements u).target_devices =
      (u.devices.getD ["web"]
        ++ (if (containsKw (lowerStr (u.description.getD "")) "mobile" ||
              containsKw (lowerStr (u.description.getD "")) "ios" ||
              containsKw (lowerStr (u.description.getD "")) "android") = true
            then ["mobile"] else []))
        ++ (if (containsKw (lowerStr (u.description.getD "")) "desktop" ||
              containsKw (lowerStr (u.description.getD "")) "electron" ||
              containsKw (lowerStr (u.description.getD "")) "tauri") = true
            then ["desktop"] else []) := by
    unfold parse_requirements
    dsimp only
    repeat' split
    all_goals simp
  constructor
  · intro x hx
    rw [hte] at hx
    rcases List.mem_append.mp hx with h | h
    · rcases List.mem_append.mp h with h' | h'
      · exact Or.inl h'
      · right; left
        revert h'
        split <;> simp
    · right; right
      revert h
      split <;> simp
  · intro hd
    rw [hte, hd]
    simp [Option.getD]

theorem c5_target_devices_amended_witness :
    "web" ∈ (parse_requirements
      { type := none, description := some "a react app", devices := none
        }).target_devices :=
  (c5_target_devices_amended
    { type := none, description := some "a react app", devices := none }).2 rfl

/-- C8: for each of the three persisted stores, loading from an absent
file and from a corrupt (invalid-JSON) file behave identically, yielding
the hard-coded defaults; the loaders are total, so no error reaches the
caller. -/
theorem c8_store_load_defaults :
    (load_user_preferences .absent = create_default_preferences ∧
     load_user_preferences .corrupt = create_default_preferences ∧
     load_user_preferences .absent = load_user_preferences .corrupt) ∧
    (load_learned_patterns .absent = default_patterns ∧
     load_learned_patterns .corrupt = default_patterns ∧
     load_learned_patterns .absent = load_learned_patterns .corrupt) ∧
    (load_compatibility_rules .absent = create_default_compatibility_rules ∧
     load_compatibility_rules .corrupt = create_default_compatibility_rules ∧
     load_compatibility_rules .absent = load_compatibility_rules .corrupt) :=
  ⟨⟨rfl, rfl, rfl⟩, ⟨rfl, rfl, rfl⟩, rfl, rfl, rfl⟩

/-- C10: complexity estimation is total: the divisor `max(count, 1)` is
always at least 1 (no division by zero), the level is always exactly one
of simple/medium/complex, and the score is non-negative — for every
stack, including ones whose technologies appear in no score table. -/
theorem c10_complexity_total (s : Stack) :
    1 ≤ max (componentCount s) 1 ∧
    ((estimate_complexity s).level = "simple" ∨
     (estimate_complexity s).level = "medium" ∨
     (estimate_complexity s).level = "complex") ∧
    0 ≤ (estimate_complexity s).score := by
  refine ⟨Nat.le_max_right _ _, ?_, ?_⟩
  · unfold estimate_complexity
    dsimp only
    split
    · exact Or.inl rfl
    · split
      · exact Or.inr (Or.inl rfl)
      · exact Or.inr (Or.inr rfl)
  · unfold estimate_complexity
    dsimp only
    positivity

theorem truthyVal_eq_some {v : Option (Option String)} {x : String}
    (h : truthyVal v = some x) : v = some (some x) ∧ x ≠ "" := by
  match v with
  | none => simp [truthyVal] at h
  | some none => simp [truthyVal] at h
  | some (some s) =>
      by_cases hs : s = ""
      · simp [truthyVal, hs] at h
      · simp only [truthyVal, hs, if_false] at h
        injection h with h1
        subst h1
        exact ⟨rfl, hs⟩

theorem substitute_not_key (v : Option (Option String)) (t : String)
    (h : substitute v = some (some t)) :
    lookupStr t open_source_alternatives = none := by
  unfold substitute at h
  cases hv : truthyVal v with
  | none =>
      rw [hv] at h
      dsimp only at h
      rw [h] at hv
      by_cases ht : t = ""
      · subst ht; decide
      · simp [truthyVal, ht] at hv
  | some x =>
      rw [hv] at h
      dsimp only at h
      obtain ⟨hvx, hx⟩ := truthyVal_eq_some hv
      cases hl : lookupStr x open_source_alternatives with
      | some alt =>
          rw [hl] at h
          have ht : t = alt := by
            injection h with h1; injection h1 with h2; exact h2.symm
          subst ht
          have halt : t = "supabase" ∨ t = "supabase-auth" ∨
              t = "postgresql" ∨ t = "railway" := by
            revert hl
            simp only [open_source_alternatives, lookupStr]
            repeat' split
            all_goals intro hl
            all_goals simp_all
          obtain h1 | h1 | h1 | h1 := halt
          all_goals rw [h1]
          all_goals decide
      | none =>
          rw [hl] at h
          rw [hvx] at h
          simp only [Option.some.injEq] at h
          subst h
          exact hl

/-- C6: when the open-source filter operates (bias not below the 0.5
threshold; below it the stage returns the stack unchanged, per the
spec's early-return clause), no slot of its output holds a value that is
itself a key of the substitution table — substitution is terminal. -/
theorem c6_substitution_terminal (bias : ℚ) (s : Stack) (sl : Slot) (t : String)
    (hb : ¬ bias < mkRat 1 2)
    (h : slotVal (apply_open_source_bias bias s) sl = some (some t)) :
    lookupStr t open_source_alternatives = none := by
  unfold apply_open_source_bias at h
  rw [if_neg hb] at h
  cases sl <;> exact substitute_not_key _ _ h

theorem c6_substitution_terminal_witness :
    ¬ (mkRat 9 10 : ℚ) < mkRat 1 2 ∧
    slotVal (apply_open_source_bias (mkRat 9 10)
      { database := some (some "firebase") }) .database = some (some "supabase") ∧
    lookupStr "supabase" open_source_alternatives = none :=
  ⟨by decide, by decide,
   c6_substitution_terminal (mkRat 9 10) { database := some (some "firebase") }
     .database "supabase" (by decide) (by decide)⟩

theorem pickMax_default_frontend :
    pickMax create_default_preferences.frontend_framework_preferences = some "react" := by
  decide

theorem pickMax_default_backend :
    pickMax create_default_preferences.backend_framework_preferences = some "fastapi" := by
  decide

theorem pickMax_default_database :
    pickMax create_default_preferences.database_preferences = some "postgresql" := by
  decide

theorem pickMax_default_hosting :
    pickMax create_default_preferences.hosting_preferences = some "vercel" := by
  decide

theorem ff_char (req : Requirements) (s s' : Stack)
    (h : frontend_fallback req create_default_preferences s = some s') :
    s'.backend = s.backend ∧ s'.database = s.database ∧ s'.hosting = s.hosting ∧
    s'.conf_backend = s.conf_backend ∧ s'.conf_database = s.conf_database ∧
    s'.conf_hosting = s.conf_hosting ∧
    ((truthyVal s.frontend).isSome = true → s' = s) ∧
    (s'.conf_frontend = s.conf_frontend ∨ s'.conf_frontend = some (mkRat 8 10)) := by
  unfold frontend_fallback at h
  split at h
  case isTrue hc =>
      have hns : ¬ (truthyVal s.frontend).isSome = true := by
        have hc' := hc
        simp only [Bool.and_eq_true] at hc'
        rw [Option.isNone_iff_eq_none.mp hc'.1]; simp
      split at h
      · injection h with hs'; subst hs'
        exact ⟨rfl, rfl, rfl, rfl, rfl, rfl, fun hS => absurd hS hns, Or.inr rfl⟩
      · rw [pickMax_default_frontend] at h
        dsimp only at h
        injection h with hs'; subst hs'
        exact ⟨rfl, rfl, rfl, rfl, rfl, rfl, fun hS => absurd hS hns, Or.inr rfl⟩
  case isFalse hc =>
      injection h with hs'; subst hs'
      exact ⟨rfl, rfl, rfl, rfl, rfl, rfl, fun _ => rfl, Or.inl rfl⟩

theorem bf_char (dl : List String) (s s' : Stack)
    (h : backend_fallback create_default_preferences dl s = some s') :
    s'.frontend = s.frontend ∧ s'.database = s.database ∧ s'.hosting = s.hosting ∧
    s'.conf_frontend = s.conf_frontend ∧ s'.conf_database = s.conf_database ∧
    s'.conf_hosting = s.conf_hosting ∧
    ((truthyVal s.backend).isSome = true → s' = s) ∧
    ((truthyVal s.backend).isSome = false → s'.conf_backend = some (mkRat 7 10)) := by
  unfold backend_fallback at h
  split at h
  case isTrue hc =>
      have hns : ¬ (truthyVal s.backend).isSome = true := by
        rw [Option.isNone_iff_eq_none.mp hc]; simp
      have done : ∀ s'' : Stack, s'' = s' →
          s''.frontend = s.frontend → s''.database = s.database →
          s''.hosting = s.hosting → s''.conf_frontend = s.conf_frontend →
          s''.conf_database = s.conf_database → s''.conf_hosting = s.conf_hosting →
          s''.conf_backend = some (mkRat 7 10) →
          s'.frontend = s.frontend ∧ s'.database = s.database ∧
          s'.hosting = s.hosting ∧ s'.conf_frontend = s.conf_frontend ∧
          s'.conf_database = s.conf_database ∧ s'.conf_hosting = s.conf_hosting ∧
          ((truthyVal s.backend).isSome = true → s' = s) ∧
          ((truthyVal s.backend).isSome = false →
            s'.conf_backend = some (mkRat 7 10)) := by
        intro s'' he h1 h2 h3 h4 h5 h6 h7
        subst he
        exact ⟨h1, h2, h3, h4, h5, h6, fun hS => absurd hS hns, fun _ => h7⟩
      split at h
      · injection h with hs'; exact done _ hs' rfl rfl rfl rfl rfl rfl rfl
      · split at h
        · injection h with hs'; exact done _ hs' rfl rfl rfl rfl rfl rfl rfl
        · rw [pickMax_default_backend] at h
          dsimp only at h
          injection h with hs'; exact done _ hs' rfl rfl rfl rfl rfl rfl rfl
  case isFalse hc =>
      injection h with hs'; subst hs'
      refine ⟨rfl, rfl, rfl, rfl, rfl, rfl, fun _ => rfl, fun hS => ?_⟩
      cases ho : truthyVal s.backend with
      | none => rw [Option.isNone_iff_eq_none.mpr ho] at hc; exact absurd rfl hc
      | some x => rw [ho] at hS; exact absurd hS (by simp)

theorem df_char (req : Requirements) (s s' : Stack)
    (h : database_fallback req create_default_preferences s = some s') :
    s'.frontend = s.frontend ∧ s'.backend = s.backend ∧ s'.hosting = s.hosting ∧
    s'.conf_frontend = s.conf_frontend ∧ s'.conf_backend = s.conf_backend ∧
    s'.conf_hosting = s.conf_hosting ∧
    ((truthyVal s.database).isSome = true → s' = s) ∧
    ((truthyVal s.database).isSome = false → s'.conf_database = some (mkRat 7 10)) := by
  unfold database_fallback at h
  split at h
  case isTrue hc =>
      have hns : ¬ (truthyVal s.database).isSome = true := by
        rw [Option.isNone_iff_eq_none.mp hc]; simp
      split at h
      · injection h with hs'; subst hs'
        exact ⟨rfl, rfl, rfl, rfl, rfl, rfl, fun hS => absurd hS hns, fun _ => rfl⟩
      · rw [pickMax_default_database] at h
        dsimp only at h
        injection h with hs'; subst hs'
        exact ⟨rfl, rfl, rfl, rfl, rfl, rfl, fun hS => absurd hS hns, fun _ => rfl⟩
  case isFalse hc =>
      injection h with hs'; subst hs'
      refine ⟨rfl, rfl, rfl, rfl, rfl, rfl, fun _ => rfl, fun hS => ?_⟩
      cases ho : truthyVal s.database with
      | none => rw [Option.isNone_iff_eq_none.mpr ho] at hc; exact absurd rfl hc
      | some x => rw [ho] at hS; exact absurd hS (by simp)

theorem hf_char (s s' : Stack)
    (h : hosting_fallback create_default_preferences s = some s') :
    s'.frontend = s.frontend ∧ s'.backend = s.backend ∧ s'.database = s.database ∧
    s'.conf_frontend = s.conf_frontend ∧ s'.conf_backend = s.conf_backend ∧
    s'.conf_database = s.conf_database ∧
    ((truthyVal s.hosting).isSome = true → s' = s) ∧
    ((truthyVal s.hosting).isSome = false → s'.conf_hosting = some (mkRat 6 10)) := by
  unfold hosting_fallback at h
  split at h
  case isTrue hc =>
      have hns : ¬ (truthyVal s.hosting).isSome = true := by
        rw [Option.isNone_iff_eq_none.mp hc]; simp
      rw [pickMax_default_hosting] at h
      dsimp only at h
      injection h with hs'; subst hs'
      exact ⟨rfl, rfl, rfl, rfl, rfl, rfl, fun hS => absurd hS hns, fun _ => rfl⟩
  case isFalse hc =>
      injection h with hs'; subst hs'
      refine ⟨rfl, rfl, rfl, rfl, rfl, rfl, fun _ => rfl, fun hS => ?_⟩
      cases ho : truthyVal s.hosting with
      | none => rw [Option.isNone_iff_eq_none.mpr ho] at hc; exact absurd rfl hc
      | some x => rw [ho] at hS; exact absurd hS (by simp)

theorem uus_frontend (req : Requirements) (s : Stack) :
    (use_user_specified req s).frontend =
      (match req.user_specified_frontend with
        | [] => s.frontend | t :: _ => some (some t)) ∧
    (use_user_specified req s).conf_frontend =
      (match req.user_specified_frontend with
        | [] => s.conf_frontend | _ :: _ => some (mkRat 9 10)) := by
  unfold use_user_specified
  repeat' split
  all_goals exact ⟨rfl, rfl⟩

theorem uus_backend (req : Requirements) (s : Stack) :
    (use_user_specified req s).backend =
      (match req.user_specified_backend with
        | [] => s.backend | t :: _ => some (some t)) ∧
    (use_user_specified req s).conf_backend =
      (match req.user_specified_backend with
        | [] => s.conf_backend | _ :: _ => some (mkRat 9 10)) := by
  unfold use_user_specified
  repeat' split
  all_goals exact ⟨rfl, rfl⟩

theorem uus_database (req : Requirements) (s : Stack) :
    (use_user_specified req s).database =
      (match req.user_specified_database with
        | [] => s.database | t :: _ => some (some t)) ∧
    (use_user_specified req s).conf_database =
      (match req.user_specified_database with
        | [] => s.conf_database | _ :: _ => some (mkRat 9 10)) := by
  unfold use_user_specified
  repeat' split
  all_goals exact ⟨rfl, rfl⟩

theorem uus_hosting (req : Requirements) (s : Stack) :
    (use_user_specified req s).hosting =
      (match req.user_specified_hosting with
        | [] => s.hosting | t :: _ => some (some t)) ∧
    (use_user_specified req s).conf_hosting =
      (match req.user_specified_hosting with
        | [] => s.conf_hosting | _ :: _ => some (mkRat 9 10)) := by
  unfold use_user_specified
  repeat' split
  all_goals exact ⟨rfl, rfl⟩

/-- C9: under the default preference tables, a user-specified category
gets confidence exactly 0.9, and a fallback-filled category gets its
category's fallback confidence (frontend 0.8, backend 0.7, database 0.7,
hosting 0.6 — each strictly below 0.9).  The hypotheses that
user-specified names are non-empty strings hold for every record the
Requirement Parser produces (its tables contain only non-empty names). -/
theorem c9_confidence_scores (req : Requirements) (detected_languages : List String)
    (s : Stack)
    (hf : ∀ t ∈ req.user_specified_frontend, t ≠ "")
    (hb : ∀ t ∈ req.user_specified_backend, t ≠ "")
    (hd : ∀ t ∈ req.user_specified_database, t ≠ "")
    (hh : ∀ t ∈ req.user_specified_hosting, t ≠ "")
    (hgen : generate_recommendations req create_default_preferences
      detected_languages = some s) :
    (req.user_specified_frontend ≠ [] → s.conf_frontend = some (mkRat 9 10)) ∧
    (req.user_specified_frontend = [] →
      s.conf_frontend = none ∨ s.conf_frontend = some (mkRat 8 10)) ∧
    (req.user_specified_backend ≠ [] → s.conf_backend = some (mkRat 9 10)) ∧
    (req.user_specified_backend = [] → s.conf_backend = some (mkRat 7 10)) ∧
    (req.user_specified_database ≠ [] → s.conf_database = some (mkRat 9 10)) ∧
    (req.user_specified_database = [] → s.conf_database = some (mkRat 7 10)) ∧
    (req.user_specified_hosting ≠ [] → s.conf_hosting = some (mkRat 9 10)) ∧
    (req.user_specified_hosting = [] → s.conf_hosting = some (mkRat 6 10)) ∧
    mkRat 6 10 < mkRat 9 10 ∧ mkRat 7 10 < mkRat 9 10 ∧ mkRat 8 10 < mkRat 9 10 := by
  unfold generate_recommendations at hgen
  dsimp only at hgen
  cases h1 : frontend_fallback req create_default_preferences
      (use_user_specified req empty_recommendation) with
  | none => rw [h1] at hgen; exact absurd hgen (by simp)
  | some s1 =>
  rw [h1] at hgen
  simp only [Option.pure_def, Option.bind_eq_bind, Option.some_bind] at hgen
  cases h2 : backend_fallback create_default_preferences detected_languages s1 with
  | none => rw [h2] at hgen; exact absurd hgen (by simp)
  | some s2 =>
  rw [h2] at hgen
  simp only [Option.pure_def, Option.bind_eq_bind, Option.some_bind] at hgen
  cases h3 : database_fallback req create_default_preferences s2 with
  | none => rw [h3] at hgen; exact absurd hgen (by simp)
  | some s3 =>
  rw [h3] at hgen
  simp only [Option.pure_def, Option.bind_eq_bind, Option.some_bind] at hgen
  obtain ⟨e1b, e1d, e1h, c1b, c1d, c1h, id1, df1⟩ := ff_char _ _ _ h1
  obtain ⟨e2f, e2d, e2h, c2f, c2d, c2h, id2, act2⟩ := bf_char _ _ _ h2
  obtain ⟨e3f, e3b, e3h, c3f, c3b, c3h, id3, act3⟩ := df_char _ _ _ h3
  obtain ⟨e4f, e4b, e4d, c4f, c4b, c4d, id4, act4⟩ := hf_char _ _ hgen
  obtain ⟨uf1, uf2⟩ := uus_frontend req empty_recommendation
  obtain ⟨ub1, ub2⟩ := uus_backend req empty_recommendation
  obtain ⟨ud1, ud2⟩ := uus_database req empty_recommendation
  obtain ⟨uh1, uh2⟩ := uus_hosting req empty_recommendation
  refine ⟨?_, ?_, ?_, ?_, ?_, ?_, ?_, ?_, by decide, by decide, by decide⟩
  · intro hne
    cases hl : req.user_specified_frontend with
    | nil => exact absurd hl hne
    | cons tf tfl =>
        rw [hl] at uf1 uf2
        have htf : tf ≠ "" := hf tf (by rw [hl]; exact List.mem_cons_self tf tfl)
        have hid : s1 = use_user_specified req empty_recommendation := by
          apply id1
          rw [uf1, truthyVal_of_ne htf]
          rfl
        rw [c4f, c3f, c2f, hid, uf2]
  · intro hl
    rw [hl] at uf2
    rcases df1 with hdf | hdf
    · left; rw [c4f, c3f, c2f, hdf, uf2]; rfl
    · right; rw [c4f, c3f, c2f, hdf]
  · intro hne
    cases hl : req.user_specified_backend with
    | nil => exact absurd hl hne
    | cons tb tbl =>
        rw [hl] at ub1 ub2
        have htb : tb ≠ "" := hb tb (by rw [hl]; exact List.mem_cons_self tb tbl)
        have hid : s2 = s1 := by
          apply id2
          rw [e1b, ub1, truthyVal_of_ne htb]
          rfl
        rw [c4b, c3b, hid, c1b, ub2]
  · intro hl
    rw [hl] at ub1
    have hact : s2.conf_backend = some (mkRat 7 10) := by
      apply act2
      rw [e1b, ub1]
      rfl
    rw [c4b, c3b, hact]
  · intro hne
    cases hl : req.user_specified_database with
    | nil => exact absurd hl hne
    | cons td tdl =>
        rw [hl] at ud1 ud2
        have htd : td ≠ "" := hd td (by rw [hl]; exact List.mem_cons_self td tdl)
        have hid : s3 = s2 := by
          apply id3
          rw [e2d, e1d, ud1, truthyVal_of_ne htd]
          rfl
        rw [c4d, hid, c2d, c1d, ud2]
  · intro hl
    rw [hl] at ud1
    have hact : s3.conf_database = some (mkRat 7 10) := by
      apply act3
      rw [e2d, e1d, ud1]
      rfl
    rw [c4d, hact]
  · intro hne
    cases hl : req.user_specified_hosting with
    | nil => exact absurd hl hne
    | cons th thl =>
        rw [hl] at uh1 uh2
        have hth : th ≠ "" := hh th (by rw [hl]; exact List.mem_cons_self th thl)
        have hid : s = s3 := by
          apply id4
          rw [e3h, e2h, e1h, uh1, truthyVal_of_ne hth]
          rfl
        rw [hid, c3h, c2h, c1h, uh2]
  · intro hl
    rw [hl] at uh1
    apply act4
    rw [e3h, e2h, e1h, uh1]
    rfl

theorem c9_confidence_scores_witness :
    ((parse_requirements
        { type := some "webapp", description := some "a react app",
          devices := some ["web"] }).user_specified_frontend ≠ [] →
      ∀ s, generate_recommendations
        (parse_requirements
          { type := some "webapp", description := some "a react app",
            devices := some ["web"] })
        create_default_preferences [] = some s →
        s.conf_frontend = some (mkRat 9 10)) ∧
    (∀ s, generate_recommendations
        (parse_requirements
          { type := some "webapp", description := some "a react app",
            devices := some ["web"] })
        create_default_preferences [] = some s →
        s.conf_backend = some (mkRat 7 10)) := by
  constructor
  · intro hne s hgen
    exact (c9_confidence_scores _ [] s (by decide) (by decide) (by decide)
      (by decide) hgen).1 hne
  · intro s hgen
    exact (c9_confidence_scores _ [] s (by decide) (by decide) (by decide)
      (by decide) hgen).2.2.2.1 (by decide)

/-- C4: for the scenario input (webapp, "a react and fastapi app with
postgres", web devices) under the default preference and compatibility
tables, the pipeline recommends react/fastapi/postgresql, each at
confidence exactly 0.9, with no compatibility issues — whatever
languages the project-context scan detects. -/
theorem c4_scenario_react_fastapi_postgres (detected_languages : List String) :
    ((recommend_stack
        { type := some "webapp",
          description := some "a react and fastapi app with postgres",
          devices := some ["web"] } detected_languages).map
      (fun st => pyGet st.frontend) = some (some "react")) ∧
    ((recommend_stack
        { type := some "webapp",
          description := some "a react and fastapi app with postgres",
          devices := some ["web"] } detected_languages).map
      (fun st => pyGet st.backend) = some (some "fastapi")) ∧
    ((recommend_stack
        { type := some "webapp",
          description := some "a react and fastapi app with postgres",
          devices := some ["web"] } detected_languages).map
      (fun st => pyGet st.database) = some (some "postgresql")) ∧
    ((recommend_stack
        { type := some "webapp",
          description := some "a react and fastapi app with postgres",
          devices := some ["web"] } detected_languages).map
      (fun st => st.conf_frontend) = some (some (mkRat 9 10))) ∧
    ((recommend_stack
        { type := some "webapp",
          description := some "a react and fastapi app with postgres",
          devices := some ["web"] } detected_languages).map
      (fun st => st.conf_backend) = some (some (mkRat 9 10))) ∧
    ((recommend_stack
        { type := some "webapp",
          description := some "a react and fastapi app with postgres",
          devices := some ["web"] } detected_languages).map
      (fun st => st.conf_database) = some (some (mkRat 9 10))) ∧
    ((recommend_stack
        { type := some "webapp",
          description := some "a react and fastapi app with postgres",
          devices := some ["web"] } detected_languages).map
      (fun st => st.compatibility_issues) = some []) := by
  exact ⟨rfl, rfl, rfl, rfl, rfl, rfl, rfl⟩
